import Mathlib

/-!
Shallow embedding of the spur-gear calculation library (spur_gears.py) and
verification of the frozen claims about it.

Conventions of the embedding:
* pint quantities are modelled as a real magnitude together with a unit; a
  unit is a physical dimension plus a conversion factor to the reference
  unit of that dimension.  Quantity.to models pint conversion, which fails
  (DimensionalityError) on incompatible dimensions.
* Every Python method is modelled with codomain Except PyExc _, recording
  the exceptions the method can let escape; "return None" is modelled as
  Except.ok none.
* Float arithmetic is idealised as real arithmetic.  A Python division
  whose divisor is zero raises ZeroDivisionError, modelled explicitly.
-/

namespace SpurGearsModel

noncomputable section

/-- Physical dimensions needed by the library. -/
inductive Dim : Type
  | length | force | power | velocity | rotspeed | angle | mass
  deriving DecidableEq

/-- A unit: a dimension and the factor converting one of this unit into the
reference unit of that dimension. -/
structure PhysUnit : Type where
  dim : Dim
  factor : ℝ

/-- A pint quantity: magnitude and unit. -/
structure Quantity : Type where
  mag : ℝ
  unit : PhysUnit

/-- Python exceptions that operations of the source can raise. -/
inductive PyExc : Type
  | typeError | attributeError | dimensionalityError | zeroDivisionError | valueError
  deriving DecidableEq

def meter : PhysUnit := ⟨.length, 1⟩
def inch : PhysUnit := ⟨.length, 0.0254⟩
def newton : PhysUnit := ⟨.force, 1⟩
def lbf : PhysUnit := ⟨.force, 4.4482216152605⟩
def watt : PhysUnit := ⟨.power, 1⟩
def horsepower : PhysUnit := ⟨.power, 745.6998715822702⟩
def metersPerSecond : PhysUnit := ⟨.velocity, 1⟩
def feetPerMinute : PhysUnit := ⟨.velocity, 0.3048 / 60⟩
def rpm : PhysUnit := ⟨.rotspeed, 1⟩
def radian : PhysUnit := ⟨.angle, 1⟩
def degree : PhysUnit := ⟨.angle, Real.pi / 180⟩
def kilogram : PhysUnit := ⟨.mass, 1⟩

/-- pint conversion (both .to and the in-place .ito): succeeds exactly when
the dimensions agree, rescaling the magnitude. -/
def Quantity.to (q : Quantity) (u : PhysUnit) : Except PyExc Quantity :=
  if q.unit.dim = u.dim then .ok ⟨q.mag * q.unit.factor / u.factor, u⟩
  else .error .dimensionalityError

/-- SpurGears.transmitted_load (spur_gears.py lines 82-131).
The try block converts power to horsepower and pitchline to ft/min and
returns None on conversion failure; the load 33000*power/pitchline is then
computed outside any try block (so a zero pitchline magnitude raises), put
in lbf, and converted to the requested output unit (default newton),
returning None if that conversion fails. -/
def transmitted_load (power pitchline : Quantity) (unit_type : Option PhysUnit) :
    Except PyExc (Option Quantity) :=
  match power.to horsepower, pitchline.to feetPerMinute with
  | .ok p, .ok v =>
      let outUnit := unit_type.getD newton
      if v.mag = 0 then .error .zeroDivisionError
      else
        let load := 33000 * p.mag / v.mag
        let output_load_lbf : Quantity := ⟨load, lbf⟩
        match output_load_lbf.to outUnit with
        | .ok out => .ok (some out)
        | .error _ => .ok none
  | _, _ => .ok none

/-- SpurGears.pitch_line (spur_gears.py lines 188-221).
Converts diameter to inch and gear_speed to rpm (returning None on
failure), computes V = pi*diameter*gear_speed/12 in ft/min, and converts to
the requested output unit (default m/s).  If that conversion fails the
source prints a message and returns self.pitchline, the ft/min quantity. -/
def pitch_line (diameter gear_speed : Quantity) (unit_type : Option PhysUnit) :
    Except PyExc (Option Quantity) :=
  match diameter.to inch, gear_speed.to rpm with
  | .ok d, .ok n =>
      let outUnit := unit_type.getD metersPerSecond
      let V := Real.pi * d.mag * n.mag / 12
      let pl : Quantity := ⟨V, feetPerMinute⟩
      match pl.to outUnit with
      | .ok out => .ok (some out)
      | .error _ => .ok (some pl)
  | _, _ => .ok none

/-- SpurGears.load_components (spur_gears.py lines 135-183).
Defaults the pressure angle to 20 degrees, returns None when W_t is absent,
and tries to convert the angle to radians; on conversion failure the source
sets self.pressure_angle = None and then evaluates math.tan(None), which
raises TypeError.  Otherwise it computes F_radial = W_t*tan(theta) and
F_magnitude = W_t/cos(theta) (a division, raising on a zero cosine) and
optionally converts both to unit_type with .ito, whose dimensional failure
is not caught.  The source returns the pair (F_magnitude, F_radial). -/
def load_components (W_t pressure_angle : Option Quantity) (unit_type : Option PhysUnit) :
    Except PyExc (Option (Quantity × Quantity)) :=
  let pa := pressure_angle.getD ⟨20, degree⟩
  match W_t with
  | none => .ok none
  | some w =>
      match pa.to radian with
      | .error _ => .error .typeError
      | .ok θ =>
          if Real.cos θ.mag = 0 then .error .zeroDivisionError
          else
            let F_radial : Quantity := ⟨w.mag * Real.tan θ.mag, w.unit⟩
            let F_magnitude : Quantity := ⟨w.mag / Real.cos θ.mag, w.unit⟩
            match unit_type with
            | none => .ok (some (F_magnitude, F_radial))
            | some u =>
                match F_radial.to u, F_magnitude.to u with
                | .ok r, .ok mg => .ok (some (mg, r))
                | _, _ => .error .dimensionalityError

/-- SpurGears.interference (spur_gears.py lines 31-79), with m standing for
the gear-ratio argument of the source.  The K coefficient is selected by
exact comparison against the fixed literal list of the source; an
unrecognised gear_type prints a message and returns None before the angle
is touched.  The angle (default 20 degrees) is then converted in place to
radians (uncaught on failure) and eq. 13-11 is evaluated; math.sqrt of a
negative raises ValueError and a zero divisor raises ZeroDivisionError. -/
def interference (pressure_angle : Option Quantity) (m : ℝ) (gear_type : Option String) :
    Except PyExc (Option ℝ) :=
  let K : Option ℝ :=
    match gear_type with
    | none => some 1
    | some g =>
        if g = "Full Depth" ∨ g = "full depth" ∨ g = "FullDepth" ∨ g = "fulldepth" ∨
            g = "Full" ∨ g = "full" then some 1
        else if g = "Stub Teeth" ∨ g = "stub teeth" ∨ g = "StubTeeth" ∨ g = "stubteeth" ∨
            g = "Stub" ∨ g = "stub" then some 0.80
        else none
  match K with
  | none => .ok none
  | some k =>
      let pa := pressure_angle.getD ⟨20, degree⟩
      match pa.to radian with
      | .error e => .error e
      | .ok θ =>
          let s := Real.sin θ.mag
          if m ^ 2 + (1 + 2 * m) * s ^ 2 < 0 then .error .valueError
          else if (1 + 2 * m) * s ^ 2 = 0 then .error .zeroDivisionError
          else .ok (some ((2 * k) * (m + Real.sqrt (m ^ 2 + (1 + 2 * m) * s ^ 2)) /
              ((1 + 2 * m) * s ^ 2)))

/-- The literal cast-profile alias list of the source (line 407). -/
def castList : List String :=
  ["cast", "Cast", "castprofile", "CastProfile", "cast profile", "Cast Profile",
   "Cast profile", "castiron", "Castiron", "CastIron", "cast iron", "Cast Iron", "Cast iron"]

/-- The literal mill-profile alias list of the source (line 408). -/
def millList : List String :=
  ["mill", "milled", "Mill", "Milled", "millprofile", "milledprofile", "MillProfile",
   "MilledProfile", "mill profile", "milled profile", "Mill Profile", "Milled Profile",
   "cut", "Cut", "cutprofile", "CutProfile", "cut profile", "Cut Profile"]

/-- The literal shaped-profile alias list of the source (line 409). -/
def shapedList : List String :=
  ["shaped", "Shaped", "shapedprofile", "ShapedProfile", "shaped profile", "Shaped Profile",
   "hobbed", "Hobbed", "hobbedprofile", "HobbedProbile", "hobbed profile", "Hobbed Profile"]

/-- Count of a possibly missing profile string in an alias list; Python
list.count of None over these string lists is 0. -/
def profileCount (profile : Option String) (l : List String) : Nat :=
  match profile with
  | some p => l.count p
  | none => 0

/-- SpurGears.dynamic_factor (spur_gears.py lines 376-427).
First converts pitchline in place to m/s (uncaught on dimensional failure).
The cast and mill branches use pitchline.magnitude and return the closed
forms of the source.  The shaped branch evaluates math.sqrt of the pint
quantity itself (not its magnitude), which raises.  Any other profile
reaches self.shaved.count, but self.shaved is never assigned anywhere in
the class, so an AttributeError is raised; the print-and-return-None else
branch of the source is unreachable. -/
def dynamic_factor (profile : Option String) (pitchline : Quantity) :
    Except PyExc (Option ℝ) :=
  match pitchline.to metersPerSecond with
  | .error e => .error e
  | .ok v =>
      if profileCount profile castList = 1 then .ok (some ((3.05 + v.mag) / 3.05))
      else if profileCount profile millList = 1 then .ok (some ((6.1 + v.mag) / 6.1))
      else if profileCount profile shapedList = 1 then .error .dimensionalityError
      else .error .attributeError

/-! ## The gear characteristic solver (SpurGears.gear_char, lines 225-326)

The five parameters are stored as attributes that are either a value or
None; the solver runs passes of a while loop (self.index counts failed
passes, the loop stops at 6).  Within a pass each still-None field is
derived by a first candidate expression; if that raises (TypeError from a
None operand, ZeroDivisionError from a zero divisor) the bare except falls
back to a second candidate, and if that raises too the field is left None.
The solver does no unit conversion, so magnitudes in a consistent length
unit are modelled directly as reals. -/

/-- A Python binary division a/b on possibly-None operands: TypeError when
an operand is None, ZeroDivisionError when the divisor is zero. -/
def pyDiv : Option ℝ → Option ℝ → Except PyExc ℝ
  | some a, some b => if b = 0 then .error .zeroDivisionError else .ok (a / b)
  | _, _ => .error .typeError

/-- A Python binary multiplication a*b on possibly-None operands:
TypeError when an operand is None. -/
def pyMul : Option ℝ → Option ℝ → Except PyExc ℝ
  | some a, some b => .ok (a * b)
  | _, _ => .error .typeError

/-- The nested try/except of each derivation: try the first candidate, on
any exception try the second, on any exception leave the field None. -/
def tryExcept2 : Except PyExc ℝ → Except PyExc ℝ → Option ℝ
  | .ok v, _ => some v
  | .error _, .ok v => some v
  | .error _, .error _ => none

/-- Derive a field only when it is still None (the if self.x == None
guards of the source). -/
def keepOr (cur upd : Option ℝ) : Option ℝ :=
  match cur with
  | some v => some v
  | none => upd

/-- The five gear parameters, in the field order of the source. -/
inductive GearField : Type
  | pitch | teeth_num | mod | circular_pitch | diameter
  deriving DecidableEq

/-- The solver state: the five attributes, each possibly None. -/
structure GearState : Type where
  pitch : Option ℝ
  teeth_num : Option ℝ
  mod : Option ℝ
  circular_pitch : Option ℝ
  diameter : Option ℝ

/-- One pass of the while loop (source lines 264-319): each field is
derived in order pitch, teeth_num, mod, circular_pitch, diameter, later
derivations seeing the values assigned earlier in the same pass.  The
fallback for pitch reads self.cicular_pitch, a misspelling of
self.circular_pitch; that attribute is never assigned anywhere, so the
read always raises AttributeError and the fallback never produces a
value. -/
def gearPass (st : GearState) : GearState :=
  let p := keepOr st.pitch
    (tryExcept2 (pyDiv st.teeth_num st.diameter) (.error .attributeError))
  let t := keepOr st.teeth_num
    (tryExcept2 (pyMul p st.diameter) (pyDiv st.diameter st.mod))
  let m := keepOr st.mod
    (tryExcept2 (pyDiv st.diameter t) (pyDiv st.circular_pitch (some Real.pi)))
  let c := keepOr st.circular_pitch
    (tryExcept2 (pyDiv (some Real.pi) p) (pyMul (some Real.pi) m))
  let d := keepOr st.diameter
    (tryExcept2 (pyDiv t p) (pyMul m t))
  ⟨p, t, m, c, d⟩

/-- The completeness test of the source (line 321): the pass succeeded
exactly when none of the five attributes is None. -/
def allKnown (st : GearState) : Bool :=
  st.pitch.isSome && st.teeth_num.isSome && st.mod.isSome &&
    st.circular_pitch.isSome && st.diameter.isSome

/-- The fields still None in a state; during the last pass (index 5) the
source prints a diagnostic naming exactly these fields before the loop
gives up. -/
def missingFields (st : GearState) : List GearField :=
  (if st.pitch = none then [GearField.pitch] else []) ++
  (if st.teeth_num = none then [GearField.teeth_num] else []) ++
  (if st.mod = none then [GearField.mod] else []) ++
  (if st.circular_pitch = none then [GearField.circular_pitch] else []) ++
  (if st.diameter = none then [GearField.diameter] else [])

/-- The raw 5-tuple the source returns on success: the values of the five
attributes at the return statement (line 326). -/
def RawTuple : Type := Option ℝ × Option ℝ × Option ℝ × Option ℝ × Option ℝ

/-- The solver outcome: a returned tuple, or the implicit return None of
the exhausted while loop together with the field names printed during the
final pass. -/
def SolveResult : Type := Except (List GearField) RawTuple

/-- The while loop with the remaining number of passes as fuel: run a pass;
if everything is known return the tuple, otherwise increment self.index
and continue, giving up (returning None, having named the missing fields)
when the fuel runs out at index 6. -/
def gearLoop : Nat → GearState → SolveResult
  | 0, st => .error (missingFields st)
  | fuel + 1, st =>
      let st' := gearPass st
      if allKnown st' then .ok (st'.pitch, st'.teeth_num, st'.mod, st'.circular_pitch, st'.diameter)
      else gearLoop fuel st'

/-- SpurGears.gear_char: initialise the attributes from the arguments and
run at most 6 passes.  Every exception-raising operation of the body sits
inside a try/except (modelled inside tryExcept2), so the method itself
never lets a Python exception escape; the Except PyExc codomain records
that, like every method here, it is a Python call that could in principle
raise. -/
def gear_char (pitch teeth_num mod circular_pitch diameter : Option ℝ) :
    Except PyExc SolveResult :=
  .ok (gearLoop 6 ⟨pitch, teeth_num, mod, circular_pitch, diameter⟩)

/-- Number of known (non-None) arguments among the five. -/
def knownCount (pitch teeth_num mod circular_pitch diameter : Option ℝ) : Nat :=
  (if pitch.isSome then 1 else 0) + (if teeth_num.isSome then 1 else 0) +
    (if mod.isSome then 1 else 0) + (if circular_pitch.isSome then 1 else 0) +
    (if diameter.isSome then 1 else 0)

/-- The identity web of spec section 3 for a fully populated parameter
set. -/
def gearIdentities (p t m c d : ℝ) : Prop :=
  p = t / d ∧ m = d / t ∧ c = Real.pi / p ∧ c = Real.pi * m ∧ d = m * t


/-! ## Unfolding lemmas for the solver loop -/

theorem gearLoop_zero (st : GearState) : gearLoop 0 st = .error (missingFields st) := rfl

theorem gearLoop_succ (fuel : Nat) (st : GearState) :
    gearLoop (fuel + 1) st =
      (let st' := gearPass st
       if allKnown st' then
         .ok (st'.pitch, st'.teeth_num, st'.mod, st'.circular_pitch, st'.diameter)
       else gearLoop fuel st') := rfl

/-- Unfolding lemma for one loop iteration at a numeral fuel value. -/
theorem gearLoop_unfold (n : Nat) (st : GearState) :
    gearLoop (n + 1) st =
      (if allKnown (gearPass st) then
        .ok ((gearPass st).pitch, (gearPass st).teeth_num, (gearPass st).mod,
          (gearPass st).circular_pitch, (gearPass st).diameter)
       else gearLoop n (gearPass st)) := rfl

theorem gearLoop6 (st : GearState) : gearLoop 6 st =
    (if allKnown (gearPass st) then
      .ok ((gearPass st).pitch, (gearPass st).teeth_num, (gearPass st).mod,
        (gearPass st).circular_pitch, (gearPass st).diameter)
     else gearLoop 5 (gearPass st)) := rfl

theorem gearLoop5 (st : GearState) : gearLoop 5 st =
    (if allKnown (gearPass st) then
      .ok ((gearPass st).pitch, (gearPass st).teeth_num, (gearPass st).mod,
        (gearPass st).circular_pitch, (gearPass st).diameter)
     else gearLoop 4 (gearPass st)) := rfl

theorem gearLoop4 (st : GearState) : gearLoop 4 st =
    (if allKnown (gearPass st) then
      .ok ((gearPass st).pitch, (gearPass st).teeth_num, (gearPass st).mod,
        (gearPass st).circular_pitch, (gearPass st).diameter)
     else gearLoop 3 (gearPass st)) := rfl

theorem gearLoop3 (st : GearState) : gearLoop 3 st =
    (if allKnown (gearPass st) then
      .ok ((gearPass st).pitch, (gearPass st).teeth_num, (gearPass st).mod,
        (gearPass st).circular_pitch, (gearPass st).diameter)
     else gearLoop 2 (gearPass st)) := rfl

theorem gearLoop2 (st : GearState) : gearLoop 2 st =
    (if allKnown (gearPass st) then
      .ok ((gearPass st).pitch, (gearPass st).teeth_num, (gearPass st).mod,
        (gearPass st).circular_pitch, (gearPass st).diameter)
     else gearLoop 1 (gearPass st)) := rfl

theorem gearLoop1 (st : GearState) : gearLoop 1 st =
    (if allKnown (gearPass st) then
      .ok ((gearPass st).pitch, (gearPass st).teeth_num, (gearPass st).mod,
        (gearPass st).circular_pitch, (gearPass st).diameter)
     else gearLoop 0 (gearPass st)) := rfl

/-- If a pass reaches state s2 that is not yet complete, one loop
iteration steps to the next fuel value. -/
theorem gearLoop_step_of_not_known (n : Nat) (s s2 : GearState) (h : gearPass s = s2)
    (hk : allKnown s2 = false) : gearLoop (n + 1) s = gearLoop n s2 := by
  rw [gearLoop_unfold, h, hk]
  simp

/-- A state on which a pass makes no progress and which is incomplete stays
an error for every fuel value. -/
theorem gearLoop_stable (s : GearState) (hs : gearPass s = s) (hk : allKnown s = false) :
    ∀ fuel, gearLoop fuel s = .error (missingFields s) := by
  intro fuel
  induction fuel with
  | zero => exact gearLoop_zero s
  | succ n ih =>
      rw [gearLoop_step_of_not_known n s s hs hk]
      exact ih

/-- The loop returns a tuple only when the completeness test held, so every
component of a returned tuple is a known value. -/
theorem gearLoop_ok_complete (fuel : Nat) : ∀ (st : GearState) (r : RawTuple),
    gearLoop fuel st = .ok r →
    r.1.isSome ∧ r.2.1.isSome ∧ r.2.2.1.isSome ∧ r.2.2.2.1.isSome ∧ r.2.2.2.2.isSome := by
  induction fuel with
  | zero =>
      intro st r h
      rw [gearLoop_zero] at h
      exact Except.noConfusion h
  | succ n ih =>
      intro st r h
      rw [gearLoop_unfold] at h
      by_cases hk : allKnown (gearPass st)
      · rw [if_pos hk] at h
        injection h with h
        subst h
        unfold allKnown at hk
        simp only [Bool.and_eq_true] at hk
        exact ⟨hk.1.1.1.1, hk.1.1.1.2, hk.1.1.2, hk.1.2, hk.2⟩
      · rw [if_neg hk] at h
        exact ih (gearPass st) r h


/-! ## Numeric bounds on the trigonometric values at 20 degrees -/

/-- Rational bracketing of pi/18 from the Mathlib decimal bounds on pi. -/
theorem piDiv18_bounds : (0.1745328:ℝ) ≤ Real.pi/18 ∧ Real.pi/18 ≤ (0.1745330:ℝ) := by
  have hl := Real.pi_gt_d6
  have hu := Real.pi_lt_d6
  constructor <;> linarith

/-- Lower bound on sin(pi/18) via the quartic Taylor remainder bound. -/
theorem sin_piDiv18_lb : (0.17359:ℝ) ≤ Real.sin (Real.pi/18) := by
  have ha0 : (0:ℝ) < Real.pi/18 := by positivity
  have hal := piDiv18_bounds.1
  have hau := piDiv18_bounds.2
  have habs : |Real.pi/18| ≤ 1 := by rw [abs_of_pos ha0]; linarith
  have hb := Real.sin_bound habs
  rw [abs_le, abs_of_pos ha0] at hb
  have h3u : (Real.pi/18)^3 ≤ (0.1745330:ℝ)^3 := pow_le_pow_left₀ (le_of_lt ha0) hau 3
  have h4u : (Real.pi/18)^4 ≤ (0.1745330:ℝ)^4 := pow_le_pow_left₀ (le_of_lt ha0) hau 4
  nlinarith [hb.1, h3u, h4u, hal]

/-- Upper bound on sin(pi/18). -/
theorem sin_piDiv18_ub : Real.sin (Real.pi/18) ≤ (0.17370:ℝ) := by
  have ha0 : (0:ℝ) < Real.pi/18 := by positivity
  have hal := piDiv18_bounds.1
  have hau := piDiv18_bounds.2
  have habs : |Real.pi/18| ≤ 1 := by rw [abs_of_pos ha0]; linarith
  have hb := Real.sin_bound habs
  rw [abs_le, abs_of_pos ha0] at hb
  have h3l : (0.1745328:ℝ)^3 ≤ (Real.pi/18)^3 := pow_le_pow_left₀ (by norm_num) hal 3
  have h4u : (Real.pi/18)^4 ≤ (0.1745330:ℝ)^4 := pow_le_pow_left₀ (le_of_lt ha0) hau 4
  nlinarith [hb.2, h3l, h4u, hau]

/-- Lower bound on cos(pi/18). -/
theorem cos_piDiv18_lb : (0.98471:ℝ) ≤ Real.cos (Real.pi/18) := by
  have ha0 : (0:ℝ) < Real.pi/18 := by positivity
  have hau := piDiv18_bounds.2
  have habs : |Real.pi/18| ≤ 1 := by rw [abs_of_pos ha0]; linarith
  have hb := Real.cos_bound habs
  rw [abs_le, abs_of_pos ha0] at hb
  have h2u : (Real.pi/18)^2 ≤ (0.1745330:ℝ)^2 := pow_le_pow_left₀ (le_of_lt ha0) hau 2
  have h4u : (Real.pi/18)^4 ≤ (0.1745330:ℝ)^4 := pow_le_pow_left₀ (le_of_lt ha0) hau 4
  nlinarith [hb.1, h2u, h4u]

/-- Upper bound on cos(pi/18). -/
theorem cos_piDiv18_ub : Real.cos (Real.pi/18) ≤ (0.98483:ℝ) := by
  have ha0 : (0:ℝ) < Real.pi/18 := by positivity
  have hal := piDiv18_bounds.1
  have hau := piDiv18_bounds.2
  have habs : |Real.pi/18| ≤ 1 := by rw [abs_of_pos ha0]; linarith
  have hb := Real.cos_bound habs
  rw [abs_le, abs_of_pos ha0] at hb
  have h2l : (0.1745328:ℝ)^2 ≤ (Real.pi/18)^2 := pow_le_pow_left₀ (by norm_num) hal 2
  have h4u : (Real.pi/18)^4 ≤ (0.1745330:ℝ)^4 := pow_le_pow_left₀ (le_of_lt ha0) hau 4
  nlinarith [hb.2, h2l, h4u]

/-- Bracketing of sin(pi/9) through the double-angle identity. -/
theorem sin_piDiv9_bounds :
    (0.341871:ℝ) ≤ Real.sin (Real.pi/9) ∧ Real.sin (Real.pi/9) ≤ (0.342130:ℝ) := by
  have h : Real.pi/9 = 2*(Real.pi/18) := by ring
  rw [h, Real.sin_two_mul]
  have h1 := sin_piDiv18_lb; have h2 := sin_piDiv18_ub
  have h3 := cos_piDiv18_lb; have h4 := cos_piDiv18_ub
  constructor <;> nlinarith [h1, h2, h3, h4]

/-- Bracketing of cos(pi/9) through the double-angle identity. -/
theorem cos_piDiv9_bounds :
    (0.939656:ℝ) ≤ Real.cos (Real.pi/9) ∧ Real.cos (Real.pi/9) ≤ (0.939734:ℝ) := by
  have h : Real.pi/9 = 2*(Real.pi/18) := by ring
  rw [h, Real.cos_two_mul]
  have hp := Real.sin_sq_add_cos_sq (Real.pi/18)
  have h1 := sin_piDiv18_lb; have h2 := sin_piDiv18_ub
  constructor <;>
    nlinarith [hp, h1, h2, sq_nonneg (Real.sin (Real.pi/18) - 0.17359),
      sq_nonneg (Real.sin (Real.pi/18) - 0.17370)]

/-- cos(pi/9) is positive. -/
theorem cos_piDiv9_pos : (0:ℝ) < Real.cos (Real.pi/9) :=
  lt_of_lt_of_le (by norm_num) cos_piDiv9_bounds.1

/-! ## Claim theorems -/

/-- Claim C3: gear_char never raises an exception for numerical reasons.
For every combination of present and absent input fields the call returns a
normal value (Except.ok), and the derivation combinators show why: an
operation on an unknown (None) operand raises TypeError, and the nested
try/except structure turns the first failed candidate into the fallback and
a second failure into an unresolved (None) field. -/
theorem C3_gear_char_never_raises :
    (∀ pitch teeth_num mod circular_pitch diameter : Option ℝ, ∃ r : SolveResult,
        gear_char pitch teeth_num mod circular_pitch diameter = Except.ok r) ∧
    (∀ b : Option ℝ, pyDiv none b = .error .typeError) ∧
    (∀ a : Option ℝ, pyDiv a none = .error .typeError) ∧
    (∀ b : Option ℝ, pyMul none b = .error .typeError) ∧
    (∀ a : Option ℝ, pyMul a none = .error .typeError) ∧
    (∀ (e : PyExc) (v : ℝ), tryExcept2 (.error e) (.ok v) = some v) ∧
    (∀ e e2 : PyExc, tryExcept2 (.error e) (.error e2) = none) := by
  refine ⟨fun p t m c d => ⟨_, rfl⟩, fun b => by cases b <;> rfl,
    fun a => by cases a <;> rfl, fun b => by cases b <;> rfl,
    fun a => by cases a <;> rfl, fun e v => rfl, fun e e2 => rfl⟩

/-- Claim C4, counterexample: the claim that the aliases "full",
"Full Depth" and "FULLDEPTH" all select K = 1.00 and return the same
minimum tooth count is false: at pressure angle 20 degrees (default) and
gear ratio 2, the alias "FULLDEPTH" is not in the fixed literal list of the
source, so the call returns the invalid-gear-type result None, while "full"
returns an actual tooth count. -/
theorem C4_interference_fulldepth_counterexample :
    interference none 2 (some "FULLDEPTH") = .ok none ∧
      interference none 2 (some "full") ≠ .ok none := by
  have hs : Real.sin (20 * (Real.pi/180)) ≠ 0 := by
    have h9 : (0:ℝ) < 20 * (Real.pi/180) := by positivity
    have h9' : 20 * (Real.pi/180) < Real.pi := by nlinarith [Real.pi_pos]
    exact ne_of_gt (Real.sin_pos_of_pos_of_lt_pi h9 h9')
  constructor
  · simp [interference]
  · intro h
    norm_num [interference, Quantity.to, degree, radian, hs] at h
    split_ifs at h with h1 <;> simp_all

/-- Claim C4, amended: the recognised full-depth aliases of the source are
exactly "Full Depth", "full depth", "FullDepth", "fulldepth", "Full" and
"full"; any two of them (here "full" and "Full Depth") select K = 1.00 and
give identical results for every pressure angle and gear ratio, while
"FULLDEPTH" is unrecognised and yields the invalid-gear-type result None. -/
theorem C4_interference_alias_amended (pa : Option Quantity) (m : ℝ) :
    interference pa m (some "full") = interference pa m (some "Full Depth") ∧
      interference pa m (some "full") = interference pa m (some "FullDepth") ∧
      interference pa m (some "FULLDEPTH") = .ok none := by
  refine ⟨?_, ?_, ?_⟩ <;> simp [interference]

/-- Claim C5: evaluation at the failing inputs.  For the recognised shaped
alias the source evaluates math.sqrt on the pint quantity itself and the
call raises instead of returning a factor; for "shaved" or any other
unrecognised profile the source reads the never-assigned attribute
self.shaved and raises AttributeError instead of returning the
invalid-profile value.  The cast branch, by contrast, returns its
closed-form factor. -/
theorem C5_dynamic_factor_raises :
    dynamic_factor (some "shaped") ⟨4, metersPerSecond⟩ = .error .dimensionalityError ∧
      dynamic_factor (some "shaved") ⟨4, metersPerSecond⟩ = .error .attributeError ∧
      dynamic_factor (some "bogus") ⟨4, metersPerSecond⟩ = .error .attributeError ∧
      dynamic_factor (some "cast") ⟨4, metersPerSecond⟩ = .ok (some ((3.05 + 4 * 1 / 1) / 3.05)) := by
  refine ⟨?_, ?_, ?_, ?_⟩ <;>
    simp [dynamic_factor, profileCount, castList, millList, shapedList, Quantity.to,
      metersPerSecond, List.count_cons, List.count_nil]

/-- Claim C6: evaluation at the failing input.  With W_t = 100 N present
and a pressure angle carrying a non-angular unit (5 meter), the claim says
load_components reports a UnitMismatch error value; the source instead
catches the conversion failure, sets the angle to None, and then evaluates
math.tan(None), so the call raises TypeError. -/
theorem C6_load_components_raises :
    load_components (some ⟨100, newton⟩) (some ⟨5, meter⟩) none = .error .typeError := by
  simp [load_components, Quantity.to, meter, radian, newton]

/-- Claim C7, counterexample: with diameter 2 inch, speed 1200 rpm and the
non-velocity output unit kilogram, the claim says pitch_line fails with a
UnitMismatch error value; instead the call returns the pitch-line velocity
quantity in ft/min (here 200*pi, about 628.3 ft/min). -/
theorem C7_pitch_line_counterexample :
    pitch_line ⟨2, inch⟩ ⟨1200, rpm⟩ (some kilogram) =
      .ok (some ⟨200 * Real.pi, feetPerMinute⟩) := by
  norm_num +decide [pitch_line, Quantity.to, inch, rpm, kilogram, metersPerSecond, feetPerMinute]
  ring

/-- Claim C7, amended: for every length diameter and rotational speed, if
the requested output unit is not velocity-dimensioned then pitch_line does
not convert: it prints a diagnostic and returns the computed velocity in
ft/min (the internal reference unit) rather than an error value. -/
theorem C7_pitch_line_amended (d n : Quantity) (u : PhysUnit)
    (hd : d.unit.dim = .length) (hn : n.unit.dim = .rotspeed) (hu : u.dim ≠ .velocity) :
    pitch_line d n (some u) =
      .ok (some ⟨Real.pi * (d.mag * d.unit.factor / inch.factor) *
        (n.mag * n.unit.factor / rpm.factor) / 12, feetPerMinute⟩) := by
  simp [pitch_line, Quantity.to, inch, rpm, feetPerMinute, hd, hn, Ne.symm hu]

/-- Witness for the amended claim C7 at diameter 2 inch, speed 1200 rpm,
output unit kilogram. -/
theorem C7_pitch_line_witness :
    (Quantity.mk 2 inch).unit.dim = Dim.length ∧
      (Quantity.mk 1200 rpm).unit.dim = Dim.rotspeed ∧
      kilogram.dim ≠ Dim.velocity ∧
      pitch_line ⟨2, inch⟩ ⟨1200, rpm⟩ (some kilogram) =
        .ok (some ⟨Real.pi * (2 * inch.factor / inch.factor) *
          (1200 * rpm.factor / rpm.factor) / 12, feetPerMinute⟩) :=
  ⟨rfl, rfl, by simp [kilogram],
    C7_pitch_line_amended ⟨2, inch⟩ ⟨1200, rpm⟩ kilogram rfl rfl (by simp [kilogram])⟩

/-- Approximation of 100*tan(20 degrees in radians). -/
theorem tan_piDiv9_approx : |100 * Real.tan (Real.pi/9) - 36.40| < 1/25 := by
  rw [Real.tan_eq_sin_div_cos]
  have hs := sin_piDiv9_bounds
  have hc := cos_piDiv9_bounds
  have hc0 := cos_piDiv9_pos
  have hkey : (100:ℝ) * (Real.sin (Real.pi/9) / Real.cos (Real.pi/9)) =
      100 * Real.sin (Real.pi/9) / Real.cos (Real.pi/9) := (mul_div_assoc _ _ _).symm
  have hlow : (36.36:ℝ) < 100 * (Real.sin (Real.pi/9) / Real.cos (Real.pi/9)) := by
    rw [hkey, lt_div_iff hc0]; nlinarith [hs.1, hc.2]
  have hhigh : 100 * (Real.sin (Real.pi/9) / Real.cos (Real.pi/9)) < (36.44:ℝ) := by
    rw [hkey, div_lt_iff hc0]; nlinarith [hs.2, hc.1]
  rw [abs_lt]; constructor <;> linarith

/-- Approximation of 100/cos(20 degrees in radians). -/
theorem invCos_piDiv9_approx : |100 / Real.cos (Real.pi/9) - 106.42| < 1/25 := by
  have hc := cos_piDiv9_bounds
  have hc0 := cos_piDiv9_pos
  have hlow : (106.38:ℝ) < 100 / Real.cos (Real.pi/9) := by
    rw [lt_div_iff hc0]; nlinarith [hc.2]
  have hhigh : 100 / Real.cos (Real.pi/9) < (106.46:ℝ) := by
    rw [div_lt_iff hc0]; nlinarith [hc.1]
  rw [abs_lt]; constructor <;> linarith

/-- Claim C1: for each of the seven independent pairs of known fields (both
values nonzero), gear_char returns the fully populated tuple and the four
identities of spec section 3 hold exactly (hence within any floating-point
tolerance); and concretely teeth_num = 16 with diameter = 1.6 gives
pitch = 10, module = 0.1 and circular_pitch = pi/10, which is within 0.002
of 0.314. -/
theorem C1_gear_char_two_known :
    (∀ t d : ℝ, t ≠ 0 → d ≠ 0 → ∃ p m c, gear_char none (some t) none none (some d) =
      .ok (.ok (some p, some t, some m, some c, some d)) ∧ gearIdentities p t m c d) ∧
    (∀ p t : ℝ, p ≠ 0 → t ≠ 0 → ∃ m c d, gear_char (some p) (some t) none none none =
      .ok (.ok (some p, some t, some m, some c, some d)) ∧ gearIdentities p t m c d) ∧
    (∀ p d : ℝ, p ≠ 0 → d ≠ 0 → ∃ t m c, gear_char (some p) none none none (some d) =
      .ok (.ok (some p, some t, some m, some c, some d)) ∧ gearIdentities p t m c d) ∧
    (∀ m t : ℝ, m ≠ 0 → t ≠ 0 → ∃ p c d, gear_char none (some t) (some m) none none =
      .ok (.ok (some p, some t, some m, some c, some d)) ∧ gearIdentities p t m c d) ∧
    (∀ m d : ℝ, m ≠ 0 → d ≠ 0 → ∃ p t c, gear_char none none (some m) none (some d) =
      .ok (.ok (some p, some t, some m, some c, some d)) ∧ gearIdentities p t m c d) ∧
    (∀ c t : ℝ, c ≠ 0 → t ≠ 0 → ∃ p m d, gear_char none (some t) none (some c) none =
      .ok (.ok (some p, some t, some m, some c, some d)) ∧ gearIdentities p t m c d) ∧
    (∀ c d : ℝ, c ≠ 0 → d ≠ 0 → ∃ p t m, gear_char none none none (some c) (some d) =
      .ok (.ok (some p, some t, some m, some c, some d)) ∧ gearIdentities p t m c d) ∧
    (gear_char none (some 16) none none (some 1.6) =
      .ok (.ok (some 10, some 16, some 0.1, some (Real.pi/10), some 1.6)) ∧
      |Real.pi/10 - 0.314| < 0.002) := by
  refine ⟨?_, ?_, ?_, ?_, ?_, ?_, ?_, ?_⟩
  · intro t d ht hd
    have htd : t / d ≠ 0 := div_ne_zero ht hd
    refine ⟨t/d, d/t, Real.pi/(t/d), ?_, ?_⟩
    · unfold gear_char
      simp [gearLoop6, gearPass, keepOr, tryExcept2, pyDiv, pyMul, allKnown, ht, hd, htd]
    · refine ⟨?_, ?_, ?_, ?_, ?_⟩ <;> (field_simp; try ring)
  · intro p t hp ht
    have htp : t / p ≠ 0 := div_ne_zero ht hp
    refine ⟨(t/p)/t, Real.pi/p, t/p, ?_, ?_⟩
    · unfold gear_char
      simp [gearLoop6, gearLoop5, gearPass, keepOr, tryExcept2, pyDiv, pyMul, allKnown,
        hp, ht, htp]
    · refine ⟨?_, ?_, ?_, ?_, ?_⟩ <;> (field_simp; try ring)
  · intro p d hp hd
    have hpd : p * d ≠ 0 := mul_ne_zero hp hd
    refine ⟨p*d, d/(p*d), Real.pi/p, ?_, ?_⟩
    · unfold gear_char
      simp [gearLoop6, gearPass, keepOr, tryExcept2, pyDiv, pyMul, allKnown, hp, hd, hpd]
    · refine ⟨?_, ?_, ?_, ?_, ?_⟩ <;> (field_simp; try ring)
  · intro m t hm ht
    have hmt : m * t ≠ 0 := mul_ne_zero hm ht
    refine ⟨t/(m*t), Real.pi*m, m*t, ?_, ?_⟩
    · unfold gear_char
      simp [gearLoop6, gearLoop5, gearPass, keepOr, tryExcept2, pyDiv, pyMul, allKnown,
        hm, ht, hmt]
    · refine ⟨?_, ?_, ?_, ?_, ?_⟩ <;> (field_simp; try ring)
  · intro m d hm hd
    have hdm : d / m ≠ 0 := div_ne_zero hd hm
    refine ⟨(d/m)/d, d/m, Real.pi*m, ?_, ?_⟩
    · unfold gear_char
      simp [gearLoop6, gearLoop5, gearPass, keepOr, tryExcept2, pyDiv, pyMul, allKnown,
        hm, hd, hdm]
    · refine ⟨?_, ?_, ?_, ?_, ?_⟩ <;> (field_simp; try ring)
  · intro c t hc ht
    have hpi : Real.pi ≠ 0 := Real.pi_ne_zero
    have hcpi : c / Real.pi ≠ 0 := div_ne_zero hc hpi
    have hct : c / Real.pi * t ≠ 0 := mul_ne_zero hcpi ht
    refine ⟨t/(c/Real.pi*t), c/Real.pi, c/Real.pi*t, ?_, ?_⟩
    · unfold gear_char
      simp [gearLoop6, gearLoop5, gearPass, keepOr, tryExcept2, pyDiv, pyMul, allKnown,
        hpi, hcpi, ht, hct]
    · refine ⟨?_, ?_, ?_, ?_, ?_⟩ <;> (field_simp; try ring)
  · intro c d hc hd
    have hpi : Real.pi ≠ 0 := Real.pi_ne_zero
    have hcpi : c / Real.pi ≠ 0 := div_ne_zero hc hpi
    have hdc : d / (c/Real.pi) ≠ 0 := div_ne_zero hd hcpi
    refine ⟨(d/(c/Real.pi))/d, d/(c/Real.pi), c/Real.pi, ?_, ?_⟩
    · unfold gear_char
      simp [gearLoop6, gearLoop5, gearLoop4, gearPass, keepOr, tryExcept2, pyDiv, pyMul,
        allKnown, hpi, hcpi, hd, hdc]
    · refine ⟨?_, ?_, ?_, ?_, ?_⟩ <;> (field_simp; try ring)
  · constructor
    · unfold gear_char
      norm_num [gearLoop6, gearPass, keepOr, tryExcept2, pyDiv, pyMul, allKnown]
    · rw [abs_lt]
      have h1 := Real.pi_gt_d6
      have h2 := Real.pi_lt_d6
      constructor <;> linarith

/-- Witness for claim C1: the teeth-and-diameter pair at (3, 2). -/
theorem C1_gear_char_two_known_witness :
    ((3:ℝ) ≠ 0 ∧ (2:ℝ) ≠ 0) ∧
    (∃ p m c, gear_char none (some (3:ℝ)) none none (some 2) =
      .ok (.ok (some p, some 3, some m, some c, some 2)) ∧ gearIdentities p 3 m c 2) :=
  ⟨⟨by norm_num, by norm_num⟩, C1_gear_char_two_known.1 3 2 (by norm_num) (by norm_num)⟩

/-- Claim C2: for every input with at most one known field, gear_char runs
its six passes without completing and returns the Unsolvable outcome: the
implicit None return of the exhausted loop, together with the nonempty set
of field names printed as undetermined during the final pass. -/
theorem C2_gear_char_underdetermined (pitch teeth_num mod circular_pitch diameter : Option ℝ)
    (h : knownCount pitch teeth_num mod circular_pitch diameter ≤ 1) :
    ∃ missing : List GearField,
      gear_char pitch teeth_num mod circular_pitch diameter = .ok (.error missing) ∧
        missing ≠ [] := by
  have hnone : ∃ missing : List GearField,
      gear_char none none none none none = .ok (.error missing) ∧ missing ≠ [] := by
    refine ⟨[.pitch, .teeth_num, .mod, .circular_pitch, .diameter], ?_, by simp⟩
    unfold gear_char
    rw [gearLoop_stable ⟨none, none, none, none, none⟩ rfl rfl 6]
    simp [missingFields]
  have hponly : ∀ v : ℝ, ∃ missing : List GearField,
      gear_char (some v) none none none none = .ok (.error missing) ∧ missing ≠ [] := by
    intro v
    by_cases hv : v = 0
    · subst hv
      have hst : gearPass ⟨some 0, none, none, none, none⟩ =
          ⟨some 0, none, none, none, none⟩ := by
        simp [gearPass, keepOr, tryExcept2, pyDiv, pyMul]
      refine ⟨[.teeth_num, .mod, .circular_pitch, .diameter], ?_, by simp⟩
      unfold gear_char
      rw [gearLoop_stable _ hst rfl 6]
      simp [missingFields]
    · have h01 : gearPass ⟨some v, none, none, none, none⟩ =
          ⟨some v, none, none, some (Real.pi/v), none⟩ := by
        simp [gearPass, keepOr, tryExcept2, pyDiv, pyMul, hv]
      have h12 : gearPass ⟨some v, none, none, some (Real.pi/v), none⟩ =
          ⟨some v, none, some (Real.pi/v/Real.pi), some (Real.pi/v), none⟩ := by
        simp [gearPass, keepOr, tryExcept2, pyDiv, pyMul, Real.pi_ne_zero]
      refine ⟨[.teeth_num, .diameter], ?_, by simp⟩
      unfold gear_char
      rw [gearLoop_step_of_not_known 5 _ _ h01 rfl, gearLoop_step_of_not_known 4 _ _ h12 rfl,
        gearLoop_stable ⟨some v, none, some (Real.pi/v/Real.pi), some (Real.pi/v), none⟩
          rfl rfl 4]
      simp [missingFields]
  have htonly : ∀ v : ℝ, ∃ missing : List GearField,
      gear_char none (some v) none none none = .ok (.error missing) ∧ missing ≠ [] := by
    intro v
    refine ⟨[.pitch, .mod, .circular_pitch, .diameter], ?_, by simp⟩
    unfold gear_char
    rw [gearLoop_stable ⟨none, some v, none, none, none⟩ rfl rfl 6]
    simp [missingFields]
  have hmonly : ∀ v : ℝ, ∃ missing : List GearField,
      gear_char none none (some v) none none = .ok (.error missing) ∧ missing ≠ [] := by
    intro v
    have h01 : gearPass ⟨none, none, some v, none, none⟩ =
        ⟨none, none, some v, some (Real.pi*v), none⟩ := by
      simp [gearPass, keepOr, tryExcept2, pyDiv, pyMul]
    refine ⟨[.pitch, .teeth_num, .diameter], ?_, by simp⟩
    unfold gear_char
    rw [gearLoop_step_of_not_known 5 _ _ h01 rfl,
      gearLoop_stable ⟨none, none, some v, some (Real.pi*v), none⟩ rfl rfl 5]
    simp [missingFields]
  have hconly : ∀ v : ℝ, ∃ missing : List GearField,
      gear_char none none none (some v) none = .ok (.error missing) ∧ missing ≠ [] := by
    intro v
    have h01 : gearPass ⟨none, none, none, some v, none⟩ =
        ⟨none, none, some (v/Real.pi), some v, none⟩ := by
      simp [gearPass, keepOr, tryExcept2, pyDiv, pyMul, Real.pi_ne_zero]
    refine ⟨[.pitch, .teeth_num, .diameter], ?_, by simp⟩
    unfold gear_char
    rw [gearLoop_step_of_not_known 5 _ _ h01 rfl,
      gearLoop_stable ⟨none, none, some (v/Real.pi), some v, none⟩ rfl rfl 5]
    simp [missingFields]
  have hdonly : ∀ v : ℝ, ∃ missing : List GearField,
      gear_char none none none none (some v) = .ok (.error missing) ∧ missing ≠ [] := by
    intro v
    refine ⟨[.pitch, .teeth_num, .mod, .circular_pitch], ?_, by simp⟩
    unfold gear_char
    rw [gearLoop_stable ⟨none, none, none, none, some v⟩ rfl rfl 6]
    simp [missingFields]
  rcases pitch with _ | vp <;> rcases teeth_num with _ | vt <;> rcases mod with _ | vm <;>
    rcases circular_pitch with _ | vc <;> rcases diameter with _ | vd <;>
    simp [knownCount] at h
  · exact hnone
  · exact hdonly _
  · exact hconly _
  · exact hmonly _
  · exact htonly _
  · exact hponly _

/-- Witness for claim C2: only pitch = 5 known. -/
theorem C2_gear_char_underdetermined_witness :
    knownCount (some (5:ℝ)) none none none none ≤ 1 ∧
    (∃ missing : List GearField, gear_char (some (5:ℝ)) none none none none =
      .ok (.error missing) ∧ missing ≠ []) :=
  ⟨by norm_num [knownCount],
    C2_gear_char_underdetermined (some 5) none none none none (by norm_num [knownCount])⟩

/-- Claim C8: transmitted_load converts power to horsepower and pitchline
to ft/min, computes 33000*power/pitchline as a load in lbf and converts it
to the requested force unit; concretely 35 hp at 628.3 ft/min gives about
1838 lbf, and about 8176 N under the default newton output unit. -/
theorem C8_transmitted_load_spec :
    (∀ (p v : Quantity) (u : PhysUnit), p.unit.dim = .power → v.unit.dim = .velocity →
      u.dim = .force → v.mag * v.unit.factor ≠ 0 →
      transmitted_load p v (some u) =
        .ok (some ⟨33000 * (p.mag * p.unit.factor / horsepower.factor) /
          (v.mag * v.unit.factor / feetPerMinute.factor) * lbf.factor / u.factor, u⟩)) ∧
    (∃ q : Quantity, transmitted_load ⟨35, horsepower⟩ ⟨628.3, feetPerMinute⟩ (some lbf) =
      .ok (some q) ∧ q.unit = lbf ∧ |q.mag - 1838| < 1/2) ∧
    (∃ q : Quantity, transmitted_load ⟨35, horsepower⟩ ⟨628.3, feetPerMinute⟩ none =
      .ok (some q) ∧ q.unit = newton ∧ |q.mag - 8176| < 2) := by
  refine ⟨?_, ?_, ?_⟩
  · intro p v u hp hv hu hnz
    have hv2 : v.mag * v.unit.factor / feetPerMinute.factor ≠ 0 :=
      div_ne_zero hnz (by norm_num [feetPerMinute])
    have h1 : v.mag ≠ 0 := left_ne_zero_of_mul hnz
    have h2 : v.unit.factor ≠ 0 := right_ne_zero_of_mul hnz
    simp [transmitted_load, Quantity.to, hp, hv, hu, hv2, horsepower, feetPerMinute, lbf]
    exact ⟨⟨h1, h2⟩, by norm_num⟩
  · refine ⟨⟨33000 * 35 / 628.3, lbf⟩, ?_, rfl, by rw [abs_lt]; constructor <;> norm_num⟩
    norm_num [transmitted_load, Quantity.to, horsepower, feetPerMinute, lbf]
  · refine ⟨⟨33000 * 35 / 628.3 * 4.4482216152605, newton⟩, ?_, rfl,
      by rw [abs_lt]; constructor <;> norm_num⟩
    norm_num +decide [transmitted_load, Quantity.to, horsepower, feetPerMinute, lbf, newton]

/-- Witness for claim C8 at 35 hp, 628.3 ft/min, output unit lbf. -/
theorem C8_transmitted_load_witness :
    ((Quantity.mk 35 horsepower).unit.dim = Dim.power ∧
      (Quantity.mk 628.3 feetPerMinute).unit.dim = Dim.velocity ∧
      lbf.dim = Dim.force ∧
      (Quantity.mk 628.3 feetPerMinute).mag * (Quantity.mk 628.3 feetPerMinute).unit.factor ≠ 0) ∧
    transmitted_load ⟨35, horsepower⟩ ⟨628.3, feetPerMinute⟩ (some lbf) =
      .ok (some ⟨33000 * ((35:ℝ) * horsepower.factor / horsepower.factor) /
        ((628.3:ℝ) * feetPerMinute.factor / feetPerMinute.factor) * lbf.factor / lbf.factor,
        lbf⟩) :=
  ⟨⟨rfl, rfl, rfl, by norm_num [feetPerMinute]⟩,
    C8_transmitted_load_spec.1 ⟨35, horsepower⟩ ⟨628.3, feetPerMinute⟩ lbf rfl rfl rfl
      (by norm_num [feetPerMinute])⟩

/-- Claim C9: for a force W_t and an angle-dimensioned pressure angle
theta, load_components returns the pair whose radial component is
W_t*tan(theta) and whose magnitude is W_t/cos(theta), the angle defaulting
to 20 degrees when not supplied; concretely W_t = 100 N at the default 20
degrees gives radial within 0.04 of 36.40 N and magnitude within 0.04 of
106.42 N. -/
theorem C9_load_components_spec :
    (∀ (w θq : Quantity), w.unit.dim = .force → θq.unit.dim = .angle →
      Real.cos (θq.mag * θq.unit.factor) ≠ 0 →
      load_components (some w) (some θq) none =
        .ok (some (⟨w.mag / Real.cos (θq.mag * θq.unit.factor), w.unit⟩,
          ⟨w.mag * Real.tan (θq.mag * θq.unit.factor), w.unit⟩))) ∧
    (∀ (w : Quantity) (ut : Option PhysUnit),
      load_components (some w) none ut = load_components (some w) (some ⟨20, degree⟩) ut) ∧
    (∃ mg r : Quantity, load_components (some ⟨100, newton⟩) none none = .ok (some (mg, r)) ∧
      mg.unit = newton ∧ r.unit = newton ∧
      |r.mag - 36.40| < 1/25 ∧ |mg.mag - 106.42| < 1/25) := by
  refine ⟨?_, ?_, ?_⟩
  · intro w θq _hw hθ hcos
    simp [load_components, Quantity.to, radian, hθ, hcos]
  · intro w ut
    rfl
  · have hang : (20:ℝ) * (Real.pi/180) = Real.pi/9 := by ring
    refine ⟨⟨100 / Real.cos (Real.pi/9), newton⟩, ⟨100 * Real.tan (Real.pi/9), newton⟩,
      ?_, rfl, rfl, tan_piDiv9_approx, invCos_piDiv9_approx⟩
    simp [load_components, Quantity.to, degree, radian, hang, cos_piDiv9_pos.ne']

/-- Witness for claim C9 at W_t = 100 N and an explicit 20 degree angle. -/
theorem C9_load_components_witness :
    ((Quantity.mk 100 newton).unit.dim = Dim.force ∧
      (Quantity.mk 20 degree).unit.dim = Dim.angle ∧
      Real.cos ((20:ℝ) * degree.factor) ≠ 0) ∧
    load_components (some ⟨100, newton⟩) (some ⟨20, degree⟩) none =
      .ok (some (⟨(100:ℝ) / Real.cos ((20:ℝ) * degree.factor), newton⟩,
        ⟨(100:ℝ) * Real.tan ((20:ℝ) * degree.factor), newton⟩)) := by
  have hcos : Real.cos ((20:ℝ) * degree.factor) ≠ 0 := by
    show Real.cos ((20:ℝ) * (Real.pi/180)) ≠ 0
    have h : (20:ℝ) * (Real.pi/180) = Real.pi/9 := by ring
    rw [h]
    exact cos_piDiv9_pos.ne'
  exact ⟨⟨rfl, rfl, hcos⟩,
    C9_load_components_spec.1 ⟨100, newton⟩ ⟨20, degree⟩ rfl rfl hcos⟩

/-- Claim C10: whenever gear_char returns a tuple (a non-None result),
all five of its components are known: the loop returns the tuple only
after the completeness test of source line 321 succeeded. -/
theorem C10_gear_char_complete (pitch teeth_num mod circular_pitch diameter : Option ℝ)
    (r : RawTuple)
    (h : gear_char pitch teeth_num mod circular_pitch diameter = .ok (.ok r)) :
    r.1.isSome ∧ r.2.1.isSome ∧ r.2.2.1.isSome ∧ r.2.2.2.1.isSome ∧ r.2.2.2.2.isSome := by
  have h2 : gearLoop 6 ⟨pitch, teeth_num, mod, circular_pitch, diameter⟩ = .ok r := by
    unfold gear_char at h
    injection h
  exact gearLoop_ok_complete 6 _ r h2

/-- Witness for claim C10: the pitch-and-teeth example of the source main
block (pitch = 8, teeth_num = 16). -/
theorem C10_gear_char_complete_witness :
    gear_char (some (8:ℝ)) (some 16) none none none =
      .ok (.ok (some (8:ℝ), some 16, some ((16:ℝ)/8/16), some (Real.pi/8), some ((16:ℝ)/8))) ∧
    ((some (8:ℝ)).isSome ∧ (some (16:ℝ)).isSome ∧ (some ((16:ℝ)/8/16)).isSome ∧
      (some (Real.pi/8)).isSome ∧ (some ((16:ℝ)/8)).isSome) := by
  have heval : gear_char (some (8:ℝ)) (some 16) none none none =
      .ok (.ok (some (8:ℝ), some 16, some ((16:ℝ)/8/16), some (Real.pi/8), some ((16:ℝ)/8))) := by
    unfold gear_char
    norm_num [gearLoop6, gearLoop5, gearPass, keepOr, tryExcept2, pyDiv, pyMul, allKnown]
  exact ⟨heval, C10_gear_char_complete _ _ _ _ _ _ heval⟩

end

end SpurGearsModel
